import Mathlib

/-!
Verification of the aiassist-mcp JSON-RPC tool server
(`tools/mcp-servers/aiassist_mcp/server.py` and its tool modules).

The Python code is shallowly embedded: JSON values are the inductive
`Json`, Python dicts are ordered association lists with unique keys,
the JSON-RPC dispatcher `mcp_rpc_handler` is a pure function from the
parsed request body to an HTTP outcome, and external effects
(subprocess execution, `shlex.split`) are oracles passed as explicit
parameters.
-/

namespace Aiassist

/-- JSON values, as produced by `request.json()` (numbers restricted to
integers, which is all this server's envelopes use). -/
inductive Json where
  | null
  | bool (b : Bool)
  | num (n : Int)
  | str (s : String)
  | arr (xs : List Json)
  | obj (kvs : List (String × Json))

/-- Whether `j` equals `Json.str s`: the string-equality comparisons the dispatcher performs. -/
def Json.isStr (j : Json) (s : String) : Bool :=
  match j with
  | .str t => t == s
  | _ => false

/-- Whether a JSON value is an object (a Python mapping). -/
def Json.isObj : Json → Bool
  | .obj _ => true
  | _ => false

/-- Python truthiness (`bool(x)`) of a JSON value. -/
def jsonTruthy : Json → Bool
  | .null => false
  | .bool b => b
  | .num n => n != 0
  | .str s => s ≠ ""
  | .arr xs => !xs.isEmpty
  | .obj kvs => !kvs.isEmpty

/-- Python `type(x).__name__` for a JSON value. -/
def pyTypeName : Json → String
  | .null => "NoneType"
  | .bool _ => "bool"
  | .num _ => "int"
  | .str _ => "str"
  | .arr _ => "list"
  | .obj _ => "dict"

/-- Python `d.get(k)`: first (only) binding of `k` in the ordered dict. -/
def dGetOpt {α : Type} (kvs : List (String × α)) (k : String) : Option α :=
  (kvs.find? (fun p => p.1 == k)).map (fun p => p.2)

/-- Python `d.get(k, dflt)`. -/
def dGet {α : Type} (kvs : List (String × α)) (k : String) (dflt : α) : α :=
  (dGetOpt kvs k).getD dflt

/-- Python `k in d`. -/
def dHas {α : Type} (kvs : List (String × α)) (k : String) : Bool :=
  (kvs.find? (fun p => p.1 == k)).isSome

/-- Python `d.pop(k)`'s effect on the dict: remove the binding of `k`. -/
def dRemove {α : Type} (kvs : List (String × α)) (k : String) : List (String × α) :=
  kvs.filter (fun p => p.1 != k)

/-- Python `d[k] = v`: replace in place when the key exists, else append. -/
def dSet {α : Type} (kvs : List (String × α)) (k : String) (v : α) : List (String × α) :=
  if dHas kvs k then kvs.map (fun p => if p.1 == k then (k, v) else p)
  else kvs ++ [(k, v)]

/-- Python `s[:n]` on a string (character slicing). -/
def pyTake (s : String) (n : Nat) : String :=
  (s.toList.take n).asString

/-- Python `s.strip()`: drop leading and trailing whitespace. -/
def pyStrip (s : String) : String :=
  (((s.toList.dropWhile Char.isWhitespace).reverse.dropWhile Char.isWhitespace).reverse).asString

/-- Python `s.split(",")` on the character list. -/
def pySplitCommaChars : List Char → List String
  | [] => [""]
  | c :: cs =>
    let r := pySplitCommaChars cs
    if c = ',' then "" :: r
    else (String.mk (c :: (r.headD "").toList)) :: r.tail

/-- Python `s.split(",")`. -/
def pySplitComma (s : String) : List String :=
  pySplitCommaChars s.toList

/-- Python `s.startswith(pre)`. -/
def pyStartsWith (s pre : String) : Bool :=
  pre.toList.isPrefixOf s.toList

mutual

/-- Python `repr` / `str` of a (JSON-shaped) Python value, as used by the
dispatcher's f-strings when it embeds a dict into an error message. -/
def jsonPyRepr : Json → String
  | .null => "None"
  | .bool true => "True"
  | .bool false => "False"
  | .num n => toString n
  | .str s => "\x27" ++ s ++ "\x27"
  | .arr xs => "[" ++ jsonPyReprList xs ++ "]"
  | .obj kvs => "\x7b" ++ jsonPyReprFields kvs ++ "\x7d"

/-- Comma-separated reprs of the elements of a Python list. -/
def jsonPyReprList : List Json → String
  | [] => ""
  | [x] => jsonPyRepr x
  | x :: y :: xs => jsonPyRepr x ++ ", " ++ jsonPyReprList (y :: xs)

/-- Comma-separated `'key': value` reprs of the entries of a Python dict. -/
def jsonPyReprFields : List (String × Json) → String
  | [] => ""
  | [(k, v)] => "\x27" ++ k ++ "\x27: " ++ jsonPyRepr v
  | (k, v) :: y :: xs =>
      "\x27" ++ k ++ "\x27: " ++ jsonPyRepr v ++ ", " ++ jsonPyReprFields (y :: xs)

end

/-- Python `str(x)` as interpolated by an f-string: strings appear without
quotes, everything else via its repr. -/
def pyStrJ : Json → String
  | .str s => s
  | j => jsonPyRepr j

/-- One declared parameter of a tool callable, as `_tool_signature_dict`
reports it from `inspect.signature`: name, parameter kind, default value
(`Json.null` models Python `None` for required parameters) and the
stringified annotation (`Json.null` when absent). -/
structure ParamInfo where
  name : String
  kind : String
  default : Json
  annot : Json

/-- The possible outcomes of calling a tool callable with keyword
arguments: normal return, a raised `TypeError` (argument-shape error), or
any other raised exception (string = `str(e)`). -/
inductive CallOutcome where
  | ok (v : Json)
  | typeError (msg : String)
  | exn (msg : String)

/-- A registered tool as the dispatcher sees it: the callable's
`__name__`, its raw docstring, its declared parameters, and the callable
itself (keyword-argument dict to outcome). -/
structure Tool where
  fname : String
  doc : String
  params : List ParamInfo
  impl : List (String × Json) → CallOutcome

/-- The declared parameter names, `list(sig.parameters.keys())`. -/
def Tool.paramNames (t : Tool) : List String :=
  t.params.map (fun p => p.name)

/-- The function `_tool_signature_dict(fn)`: the descriptor dict built from the
callable's signature. -/
def toolSignatureJson (t : Tool) : Json :=
  .obj [("name", .str t.fname),
        ("doc", .str (pyStrip t.doc)),
        ("params", .arr (t.params.map (fun p =>
          .obj [("name", .str p.name), ("kind", .str p.kind),
                ("default", p.default), ("annotation", p.annot)])))]

/-- The descriptor as embedded in the `-32602` message by
`f"... Signature: \x7bspec\x7d"`. -/
def toolSignatureString (t : Tool) : String :=
  jsonPyRepr (toolSignatureJson t)

/-- The reconciler `_apply_arg_aliases` (server.py lines 128-154), on an argument dict.
The three alias rules, applied sequentially on the copied dict. -/
def applyArgAliases (param_names : List String) (arguments : List (String × Json)) :
    List (String × Json) :=
  if param_names.isEmpty then arguments
  else
    -- single-param "path" alias
    let a1 := if dHas arguments "path" && !(param_names.contains "path")
                 && (param_names.length == 1)
              then dSet (dRemove arguments "path") (param_names.headD "")
                     (dGet arguments "path" .null)
              else arguments
    -- single-param "cmd"/"command" aliases
    let a2 := if param_names.length == 1 then
                let pname := param_names.headD ""
                let b1 := if dHas a1 "cmd" && (pname == "command")
                          then dSet (dRemove a1 "cmd") "command" (dGet a1 "cmd" .null)
                          else a1
                let b2 := if dHas b1 "command" && (pname == "cmd")
                          then dSet (dRemove b1 "command") "cmd" (dGet b1 "command" .null)
                          else b1
                b2
              else a1
    -- multi-param "path" → "dir" alias
    let a3 := if param_names.contains "dir" && !(dHas a2 "dir") && dHas a2 "path"
              then dSet (dRemove a2 "path") "dir" (dGet a2 "path" .null)
              else a2
    a3

/-- The reconciler `_apply_arg_aliases` on the raw `arguments` value: a non-dict is
returned unchanged. -/
def applyArgAliasesJson (param_names : List String) (arguments : Json) : Json :=
  match arguments with
  | .obj kvs => .obj (applyArgAliases param_names kvs)
  | j => j

/-- The registry `TOOLS`: a Python dict from tool name to callable. -/
abbrev Registry := List (String × Tool)

/-- Lookup `TOOLS[name]` and the membership test `name in TOOLS`. -/
def findTool (reg : Registry) (s : String) : Option Tool :=
  dGetOpt reg s

/-- The envelope `_jsonrpc_error(id_, code, message)` builds. -/
def errEnv (id_ : Json) (code : Int) (message : String) : Json :=
  .obj [("jsonrpc", .str "2.0"), ("id", id_),
        ("error", .obj [("code", .num code), ("message", .str message)])]

/-- The envelope `_jsonrpc_result(id_, result)` builds. -/
def resultEnv (id_ : Json) (result : Json) : Json :=
  .obj [("jsonrpc", .str "2.0"), ("id", id_), ("result", result)]

/-- The `"id"` field of a response envelope. -/
def envelopeId : Json → Json
  | .obj kvs => dGet kvs "id" .null
  | _ => .null

/-- What one HTTP request to the RPC handler produces: either a
`JSONResponse(status, body)` or an exception escaping the handler
(no JSON-RPC envelope is produced; the framework's generic error page
takes over). -/
inductive HandlerResult where
  | response (status : Nat) (body : Json)
  | crash (msg : String)

/-- Python's falsy-default idiom `x or \x7b\x7d` used for `params` and
`arguments`. -/
def pyOrEmptyObj (j : Json) : Json :=
  if jsonTruthy j then j else .obj []

/-- Python `sorted(TOOLS.items())`: sorting by name (keys are unique, so
tuple comparison is comparison of names). -/
def sortByName (l : List (String × Tool)) : List (String × Tool) :=
  l.insertionSort (fun a b => a.1 ≤ b.1)

/-- The entry objects of the `tools/list` result: sorted
`(name, description)` pairs, description being the stripped docstring. -/
def toolsListEntries (reg : Registry) : List Json :=
  (sortByName reg).map (fun p =>
    .obj [("name", .str p.1), ("description", .str (pyStrip p.2.doc))])

/-- The `tools/list` result object. -/
def toolsListJson (reg : Registry) : Json :=
  .obj [("tools", .arr (toolsListEntries reg))]

/-- Calling `fn(**arguments)`: a non-mapping after `**` raises `TypeError` before
the callable runs; a mapping is passed to the callable as keyword
arguments. -/
def invokeTool (t : Tool) (arguments : Json) : CallOutcome :=
  match arguments with
  | .obj kvs => t.impl kvs
  | j => .typeError (t.fname ++ "() argument after ** must be a mapping, not "
           ++ pyTypeName j)

/-- The `tools/describe` / `tools/spec` branch of `mcp_rpc_handler`.
`params.get` on a non-dict raises `AttributeError`; a truthy unhashable
`name` raises `TypeError` at the `name not in TOOLS` test. -/
def describeBranch (reg : Registry) (params : Json) (id_ : Json) : HandlerResult :=
  match params with
  | .obj pk =>
    let name := dGet pk "name" .null
    if !(jsonTruthy name) then
      .response 404 (errEnv id_ (-32601) ("Tool not found: " ++ pyStrJ name))
    else
      match name with
      | .arr _ => .crash "TypeError: unhashable type: \x27list\x27"
      | .obj _ => .crash "TypeError: unhashable type: \x27dict\x27"
      | .str s =>
        match findTool reg s with
        | some t => .response 200 (resultEnv id_ (toolSignatureJson t))
        | none => .response 404 (errEnv id_ (-32601) ("Tool not found: " ++ s))
      | other => .response 404 (errEnv id_ (-32601) ("Tool not found: " ++ pyStrJ other))
  | j => .crash ("AttributeError: \x27" ++ pyTypeName j
           ++ "\x27 object has no attribute \x27get\x27")

/-- The `tools/call` branch of `mcp_rpc_handler`: look the tool up,
reconcile arguments, invoke, and classify the outcome (`TypeError` ⇒
`-32602`/400 with the signature; other exception ⇒ `-32000`/500). -/
def callBranch (reg : Registry) (params : Json) (id_ : Json) : HandlerResult :=
  match params with
  | .obj pk =>
    let name := dGet pk "name" .null
    let arguments := pyOrEmptyObj (dGet pk "arguments" (.obj []))
    if !(jsonTruthy name) then
      .response 404 (errEnv id_ (-32601) ("Tool not found: " ++ pyStrJ name))
    else
      match name with
      | .arr _ => .crash "TypeError: unhashable type: \x27list\x27"
      | .obj _ => .crash "TypeError: unhashable type: \x27dict\x27"
      | .str s =>
        match findTool reg s with
        | some t =>
          match invokeTool t (applyArgAliasesJson t.paramNames arguments) with
          | .ok v => .response 200 (resultEnv id_ v)
          | .typeError e =>
            .response 400 (errEnv id_ (-32602)
              ("Invalid params: " ++ e ++ ". Signature: " ++ toolSignatureString t))
          | .exn e => .response 500 (errEnv id_ (-32000) ("Tool error: " ++ e))
        | none => .response 404 (errEnv id_ (-32601) ("Tool not found: " ++ s))
      | other => .response 404 (errEnv id_ (-32601) ("Tool not found: " ++ pyStrJ other))
  | j => .crash ("AttributeError: \x27" ++ pyTypeName j
           ++ "\x27 object has no attribute \x27get\x27")

/-- The dispatcher `mcp_rpc_handler` (server.py lines 155-207) on the result of
`await request.json()`: `none` models a body that failed to parse. -/
def mcp_rpc_handler (reg : Registry) (body : Option Json) : HandlerResult :=
  match body with
  | none => .response 400 (errEnv .null (-32700) "Parse error")
  | some payload =>
    match payload with
    | .obj pv =>
      let jsonrpc := dGet pv "jsonrpc" .null
      let method := dGet pv "method" .null
      let id_ := dGet pv "id" .null
      let params := pyOrEmptyObj (dGet pv "params" (.obj []))
      if !(jsonrpc.isStr "2.0") || !(jsonTruthy method) then
        .response 400 (errEnv id_ (-32600) "Invalid Request")
      else if method.isStr "tools/list" then
        .response 200 (resultEnv id_ (toolsListJson reg))
      else if method.isStr "tools/describe" || method.isStr "tools/spec" then
        describeBranch reg params id_
      else if method.isStr "tools/call" then
        callBranch reg params id_
      else
        .response 404 (errEnv id_ (-32601) ("Method not found: " ++ pyStrJ method))
    | j => .crash ("AttributeError: \x27" ++ pyTypeName j
             ++ "\x27 object has no attribute \x27get\x27")

/-- An inbound HTTP request as the middleware stack sees it: the URL
path, the `Authorization` header when present, and the (possibly
unparseable) JSON body. -/
structure HttpRequest where
  path : String
  authHeader : Option String
  body : Option Json

/-- The gate `AuthMiddleware.dispatch` (server.py lines 81-89): `some` is an early
401 rejection, `none` means `call_next` is invoked. -/
def authMiddleware (expectedToken : String) (req : HttpRequest) : Option (Nat × Json) :=
  if pyStartsWith req.path "/mcp" then
    if expectedToken ≠ "" then
      if (req.authHeader.getD "") ≠ "Bearer " ++ expectedToken then
        some (401, .obj [("error", .str "unauthorized")])
      else none
    else none
  else none

/-- What the app produces for a request: rejected by the auth gate
(the dispatcher is never entered), or the dispatcher's own outcome. -/
inductive GateResult where
  | rejected (status : Nat) (body : Json)
  | dispatched (r : HandlerResult)

/-- The middleware-wrapped RPC endpoint: `AuthMiddleware` runs first;
only when it passes does the request reach `mcp_rpc_handler`. -/
def appPipeline (expectedToken : String) (reg : Registry) (req : HttpRequest) :
    GateResult :=
  match authMiddleware expectedToken req with
  | some (s, b) => .rejected s b
  | none => .dispatched (mcp_rpc_handler reg req.body)

/-- One `TOOLS[name] = fn` registration step of `_tool_wrapper`. -/
def registerTool (reg : Registry) (name : String) (t : Tool) : Registry :=
  dSet reg name t

/-- The registry produced by a sequence of registrations into the
initially empty `TOOLS` dict. -/
def registerSeq (l : List (String × Tool)) : Registry :=
  l.foldl (fun r p => registerTool r p.1 p.2) []

/-- The callable a name resolves to after a registration sequence: the
value of its last registration (`none` when never registered). -/
def lastRegistered (l : List (String × Tool)) (n : String) : Option Tool :=
  l.foldl (fun acc p => if p.1 == n then some p.2 else acc) none

/-- The list `ALLOWED_ORIGINS` (server.py lines 19-21): split the environment
value (default `"http://127.0.0.1:8787"` when the variable is unset) on
commas, strip entries, drop empties. -/
def allowedOrigins (env : Option String) : List String :=
  ((pySplitComma (env.getD "http://127.0.0.1:8787")).map pyStrip).filter
    (fun o => o ≠ "")

/-- The applied list `allow_origins=ALLOWED_ORIGINS or ["*"]` (server.py line 215). -/
def corsAllowOrigins (env : Option String) : List String :=
  if (allowedOrigins env).isEmpty then ["*"] else allowedOrigins env

/-! ### Concrete tools

`shlex.split` and `subprocess.check_output` are external effects; they
enter the model as explicit oracles, so the tool bodies below are the
faithful control flow of `tools/shell.py` and `tools/test.py` around
them. -/

/-- The result of a `subprocess.check_output` call: normal output,
`CalledProcessError` (non-zero exit, with its `returncode` and
`output`), or any other raised exception (`TimeoutExpired`, `OSError`,
...) with its message. -/
inductive SubprocOutcome where
  | success (out : String)
  | calledProcessError (returncode : Int) (output : Option String)
  | exn (msg : String)

/-- The external effects `shell_run` performs: `shlex.split` (which can
raise `ValueError`, the `Except.error` case) and
`subprocess.check_output(tokens, cwd=..., timeout=...)`. -/
structure ShellCtx where
  split : String → Except String (List String)
  run : List String → Json → Json → SubprocOutcome

/-- The allow-list `ALLOWED` (tools/shell.py line 6). -/
def ALLOWED : List String := ["pwd", "whoami", "uname", "echo", "ls"]

/-- The body of `shell_run` (tools/shell.py lines 10-30) on a string
`cmd`; the `Bool` records whether a subprocess was spawned.  A
`ValueError` from `shlex.split` is outside the `try` and propagates as a
raised exception. -/
def shell_run_body (ctx : ShellCtx) (cmd : String) (cwd timeout : Json) :
    Bool × CallOutcome :=
  match ctx.split cmd with
  | .error e => (false, .exn e)
  | .ok tokens =>
    if tokens.isEmpty then
      (false, .ok (.obj [("ok", .bool false), ("error", .str "empty command")]))
    else
      let first := tokens.headD ""
      if !(ALLOWED.contains first) then
        (false, .ok (.obj [("ok", .bool false),
                           ("error", .str ("command not allowed: " ++ first))]))
      else
        (true,
         match ctx.run tokens cwd timeout with
         | .success out =>
             .ok (.obj [("ok", .bool true), ("output", .str (pyTake out 20000))])
         | .calledProcessError code out =>
             .ok (.obj [("ok", .bool false), ("code", .num code),
                        ("output", .str (pyTake (out.getD "") 20000))])
         | .exn m => .ok (.obj [("ok", .bool false), ("error", .str m)]))

/-- The `shell_run` callable as registered: keyword binding for
`(cmd, cwd=".", timeout=30)`, then the body.  A non-string `cmd` makes
`shlex.split` raise (`AttributeError`), uncaught by the tool. -/
def shell_run_tool (ctx : ShellCtx) : Tool where
  fname := "shell_run"
  doc := "\n        Run a whitelisted shell command.\n        Only the first token is checked against ALLOWED.\n        "
  params := [⟨"cmd", "POSITIONAL_OR_KEYWORD", .null, .str "<class \x27str\x27>"⟩,
             ⟨"cwd", "POSITIONAL_OR_KEYWORD", .str ".", .str "<class \x27str\x27>"⟩,
             ⟨"timeout", "POSITIONAL_OR_KEYWORD", .num 30, .str "<class \x27int\x27>"⟩]
  impl := fun kvs =>
    if !(kvs.all (fun p => p.1 == "cmd" || p.1 == "cwd" || p.1 == "timeout")) then
      .typeError "shell_run() got an unexpected keyword argument"
    else
      match dGetOpt kvs "cmd" with
      | none => .typeError "shell_run() missing 1 required positional argument: \x27cmd\x27"
      | some (.str c) =>
          (shell_run_body ctx c (dGet kvs "cwd" (.str ".")) (dGet kvs "timeout" (.num 30))).2
      | some j => .exn ("AttributeError: \x27" ++ pyTypeName j
                    ++ "\x27 object has no attribute \x27read\x27")

/-- The external effect `test_run` performs:
`subprocess.check_output(cmd, shell=True, cwd=..., timeout=...)`. -/
structure TestCtx where
  runShell : String → Json → Json → SubprocOutcome

/-- The body of `test_run` (tools/test.py lines 12-17): only
`CalledProcessError` is caught; everything else (`TimeoutExpired`
included) propagates out of the tool. -/
def test_run_body (ctx : TestCtx) (cmd : String) (cwd timeout : Json) : CallOutcome :=
  match ctx.runShell cmd cwd timeout with
  | .success out => .ok (.obj [("ok", .bool true), ("output", .str (pyTake out 20000))])
  | .calledProcessError code out =>
      .ok (.obj [("ok", .bool false), ("code", .num code),
                 ("output", .str (pyTake (out.getD "") 20000))])
  | .exn m => .exn m

/-- The `test_run` callable as registered: keyword binding for
`(cmd="pytest -q", cwd=".", timeout=120)`, then the body. -/
def test_run_tool (ctx : TestCtx) : Tool where
  fname := "test_run"
  doc := ""
  params := [⟨"cmd", "POSITIONAL_OR_KEYWORD", .str "pytest -q", .null⟩,
             ⟨"cwd", "POSITIONAL_OR_KEYWORD", .str ".", .null⟩,
             ⟨"timeout", "POSITIONAL_OR_KEYWORD", .num 120, .null⟩]
  impl := fun kvs =>
    if !(kvs.all (fun p => p.1 == "cmd" || p.1 == "cwd" || p.1 == "timeout")) then
      .typeError "test_run() got an unexpected keyword argument"
    else
      match dGet kvs "cmd" (.str "pytest -q") with
      | .str c => test_run_body ctx c (dGet kvs "cwd" (.str ".")) (dGet kvs "timeout" (.num 120))
      | j => .exn ("TypeError: \x27" ++ pyTypeName j ++ "\x27 is not a valid command")

/-- The built-in `ping` tool (server.py lines 42-51), with the ambient
timestamp and `APP_VERSION` supplied as parameters. -/
def ping_tool (now version : String) : Tool where
  fname := "ping"
  doc := "Connectivity check for MCP server."
  params := []
  impl := fun kvs =>
    if kvs.isEmpty then
      .ok (.obj [("status", .str "pong"), ("timestamp", .str now),
                 ("server", .str "aiassist-mcp"), ("version", .str version),
                 ("capabilities", .arr [.str "jsonrpc-2.0", .str "tools", .str "sse"])])
    else .typeError "ping() got an unexpected keyword argument"

/-- The built-in `echo` tool (server.py lines 53-56). -/
def echo_tool : Tool where
  fname := "echo"
  doc := "Echo back provided text."
  params := [⟨"text", "POSITIONAL_OR_KEYWORD", .null, .str "<class \x27str\x27>"⟩]
  impl := fun kvs =>
    if !(kvs.all (fun p => p.1 == "text")) then
      .typeError "echo() got an unexpected keyword argument"
    else
      match dGetOpt kvs "text" with
      | none => .typeError "echo() missing 1 required positional argument: \x27text\x27"
      | some (.str s) => .ok (.obj [("echo", .str s), ("length", .num s.length)])
      | some j => .exn ("TypeError: object of type \x27" ++ pyTypeName j
                    ++ "\x27 has no len()")

/-- A canonical `tools/call` request body with the identifier absent. -/
def callReq (name : String) (args : Json) : Option Json :=
  some (.obj [("jsonrpc", .str "2.0"), ("method", .str "tools/call"),
              ("params", .obj [("name", .str name), ("arguments", args)])])

/-- A minimal tool value used to exercise the registry. -/
def trivialTool (nm docstring : String) : Tool :=
  { fname := nm, doc := docstring, params := [], impl := fun _ => .ok .null }

/-- The registry state after the shell and test collaborators
registered their subprocess-running tools. -/
def shellTestRegistry (sctx : ShellCtx) (tctx : TestCtx) : Registry :=
  [("shell_run", shell_run_tool sctx), ("test_run", test_run_tool tctx)]

/-! ### Lemmas about the dict operations -/

theorem dGetOpt_cons {α : Type} (p : String × α) (kvs : List (String × α)) (k : String) :
    dGetOpt (p :: kvs) k = if p.1 == k then some p.2 else dGetOpt kvs k := by
  by_cases h : p.1 == k
  · simp [dGetOpt, List.find?_cons_of_pos, h]
  · simp only [Bool.not_eq_true] at h
    simp [dGetOpt, List.find?_cons_of_neg, h]

theorem dHas_eq_isSome {α : Type} (kvs : List (String × α)) (k : String) :
    dHas kvs k = (dGetOpt kvs k).isSome := by
  simp [dHas, dGetOpt]

theorem dGetOpt_append {α : Type} (l₁ l₂ : List (String × α)) (n : String) :
    dGetOpt (l₁ ++ l₂) n = ((dGetOpt l₁ n).orElse (fun _ => dGetOpt l₂ n)) := by
  induction l₁ with
  | nil => simp [dGetOpt]
  | cons p rest ih =>
    rw [List.cons_append, dGetOpt_cons, dGetOpt_cons]
    by_cases hp : p.1 == n
    · simp [hp]
    · simp [hp, ih]

theorem dGetOpt_mapReplace {α : Type} (kvs : List (String × α)) (k : String) (v : α)
    (n : String) :
    dGetOpt (kvs.map (fun p => if p.1 == k then (k, v) else p)) n
      = if k == n then (dGetOpt kvs k).map (fun _ => v) else dGetOpt kvs n := by
  induction kvs with
  | nil => by_cases h : k == n <;> simp [dGetOpt, h]
  | cons p rest ih =>
    simp only [List.map_cons, dGetOpt_cons, beq_iff_eq] at ih ⊢
    by_cases hp : p.1 = k
    · subst hp
      by_cases hkn : p.1 = n
      · subst hkn; simp
      · simp [hkn, ih]
    · by_cases hpn : p.1 = n
      · subst hpn
        simp [hp, Ne.symm hp]
      · simp [hp, hpn, ih]

theorem dGetOpt_dSet {α : Type} (kvs : List (String × α)) (k : String) (v : α)
    (n : String) :
    dGetOpt (dSet kvs k v) n = if k == n then some v else dGetOpt kvs n := by
  unfold dSet
  by_cases hh : dHas kvs k
  · rw [if_pos hh, dGetOpt_mapReplace]
    rw [dHas_eq_isSome] at hh
    by_cases hkn : k == n
    · rcases h : dGetOpt kvs k with _ | a
      · rw [h] at hh; simp at hh
      · simp [hkn, h]
    · simp [hkn]
  · rw [if_neg hh, dGetOpt_append]
    rw [dHas_eq_isSome] at hh
    by_cases hkn : k == n
    · rcases h : dGetOpt kvs n with _ | a
      · simp [h, dGetOpt_cons, hkn, dGetOpt]
      · exfalso
        rw [beq_iff_eq] at hkn; subst hkn
        rw [h] at hh; simp at hh
    · rcases h : dGetOpt kvs n with _ | a
      · simp [h, dGetOpt_cons, hkn, dGetOpt]
      · simp [h, hkn]

theorem dGetOpt_dRemove {α : Type} (kvs : List (String × α)) (k n : String) :
    dGetOpt (dRemove kvs k) n = if k == n then none else dGetOpt kvs n := by
  induction kvs with
  | nil => by_cases h : k == n <;> simp [dRemove, dGetOpt, h]
  | cons p rest ih =>
    by_cases hp : p.1 = k
    · subst hp
      have hremove : dRemove (p :: rest) p.1 = dRemove rest p.1 := by
        simp [dRemove, List.filter_cons]
      rw [hremove, ih]
      simp only [beq_iff_eq, dGetOpt_cons]
      by_cases hkn : p.1 = n
      · subst hkn; simp
      · simp [hkn]
    · have hremove : dRemove (p :: rest) k = p :: dRemove rest k := by
        simp [dRemove, List.filter_cons, bne_iff_ne.mpr hp]
      rw [hremove, dGetOpt_cons, ih]
      simp only [beq_iff_eq, dGetOpt_cons]
      by_cases hpn : p.1 = n
      · subst hpn
        simp [Ne.symm hp]
      · by_cases hkn : k = n <;> simp [hpn, hkn]

theorem dHas_dSet {α : Type} (kvs : List (String × α)) (k v n) :
    dHas (dSet kvs k v) n = ((k == n) || dHas kvs n) := by
  rw [dHas_eq_isSome, dGetOpt_dSet, dHas_eq_isSome]
  by_cases h : k == n <;> simp [h]

theorem dHas_dRemove {α : Type} (kvs : List (String × α)) (k n) :
    dHas (dRemove kvs k) n = (!(k == n) && dHas kvs n) := by
  rw [dHas_eq_isSome, dGetOpt_dRemove, dHas_eq_isSome]
  by_cases h : k == n <;> simp [h]

/-! ### The argument reconciler (claims C5, C6) -/

/-- Claim C5 (amended).  When the sole declared parameter is `"command"`
and the supplied arguments contain `"cmd"`, the rule fires
unconditionally: the result's `"command"` entry carries `"cmd"`'s value
— overwriting any supplied `"command"` entry, since the code checks only
`"cmd" in new_args` — and `"cmd"` is gone; symmetrically when the sole
declared parameter is `"cmd"` and the arguments contain `"command"`.
(In particular, when no `"command"` entry was supplied this is exactly
the claimed rename-keeping-value.) -/
theorem cmd_command_alias_overwrites (args : List (String × Json)) :
    (dHas args "cmd" = true →
      dGetOpt (applyArgAliases ["command"] args) "command" = dGetOpt args "cmd"
      ∧ dHas (applyArgAliases ["command"] args) "cmd" = false)
    ∧ (dHas args "command" = true →
      dGetOpt (applyArgAliases ["cmd"] args) "cmd" = dGetOpt args "command"
      ∧ dHas (applyArgAliases ["cmd"] args) "command" = false) := by
  constructor
  · intro h
    obtain ⟨y, hy⟩ := Option.isSome_iff_exists.mp (by rw [← dHas_eq_isSome]; exact h)
    simp only [applyArgAliases, List.isEmpty_cons, List.contains_cons,
      List.length_cons, List.length_nil, List.headD_cons]
    by_cases hpath : dHas args "path" = true
    · simp [hpath, dHas_dSet, dHas_dRemove, dGetOpt_dSet, dGetOpt_dRemove, dGet, h, hy]
    · simp only [Bool.not_eq_true] at hpath
      simp [hpath, dHas_dSet, dHas_dRemove, dGetOpt_dSet, dGetOpt_dRemove, dGet, h, hy]
  · intro h
    obtain ⟨y, hy⟩ := Option.isSome_iff_exists.mp (by rw [← dHas_eq_isSome]; exact h)
    simp only [applyArgAliases, List.isEmpty_cons, List.contains_cons,
      List.length_cons, List.length_nil, List.headD_cons]
    by_cases hpath : dHas args "path" = true
    · simp [hpath, dHas_dSet, dHas_dRemove, dGetOpt_dSet, dGetOpt_dRemove, dGet, h, hy]
    · simp only [Bool.not_eq_true] at hpath
      simp [hpath, dHas_dSet, dHas_dRemove, dGetOpt_dSet, dGetOpt_dRemove, dGet, h, hy]

/-- Claim C5 counterexample.  The claim as stated says a supplied
`"command"` entry is preserved unchanged when `"cmd"` is also supplied;
the code instead overwrites it with `"cmd"`'s value. -/
theorem cmd_command_alias_counterexample :
    dGetOpt (applyArgAliases ["command"]
        [("cmd", Json.str "a"), ("command", Json.str "b")]) "command"
      ≠ some (Json.str "b") := by
  have h : dGetOpt (applyArgAliases ["command"]
      [("cmd", Json.str "a"), ("command", Json.str "b")]) "command"
      = some (Json.str "a") := rfl
  rw [h]
  intro hc
  simp at hc

/-- Claim C5 witness. -/
theorem cmd_command_alias_witness :
    dHas [("cmd", Json.str "v")] "cmd" = true
    ∧ dGetOpt (applyArgAliases ["command"] [("cmd", Json.str "v")]) "command"
        = dGetOpt [("cmd", Json.str "v")] "cmd"
    ∧ dHas (applyArgAliases ["command"] [("cmd", Json.str "v")]) "cmd" = false := by
  refine ⟨rfl, ?_, ?_⟩
  · exact ((cmd_command_alias_overwrites [("cmd", Json.str "v")]).1 rfl).1
  · exact ((cmd_command_alias_overwrites [("cmd", Json.str "v")]).1 rfl).2

/-- Claim C6 (amended).  Reconciliation is the identity on argument bags
whose keys are all declared parameter names, provided additionally that
the `"dir"`/`"path"` rule cannot fire (it is not the case that `"dir"`
is declared but unsupplied while `"path"` is supplied).  Without that
proviso the claim fails: see the counterexample. -/
theorem reconcile_identity_on_declared_keys (param_names : List String)
    (args : List (String × Json))
    (hsub : ∀ k, dHas args k = true → k ∈ param_names)
    (hdir : ¬ ("dir" ∈ param_names ∧ dHas args "dir" = false ∧ dHas args "path" = true)) :
    applyArgAliases param_names args = args := by
  unfold applyArgAliases
  by_cases hemp : param_names.isEmpty
  · simp [hemp]
  · simp only [hemp, Bool.false_eq_true, if_false]
    have hpath1 : (dHas args "path" && !(param_names.contains "path")
        && (param_names.length == 1)) = false := by
      by_cases hp : dHas args "path" = true
      · have hc : "path" ∈ param_names := hsub "path" hp
        simp [hp, hc]
      · simp only [Bool.not_eq_true] at hp
        simp [hp]
    simp only [hpath1, Bool.false_eq_true, if_false]
    have hstep2 : (if param_names.length == 1 then
        let pname := param_names.headD ""
        let b1 := if dHas args "cmd" && (pname == "command")
                  then dSet (dRemove args "cmd") "command" (dGet args "cmd" .null)
                  else args
        let b2 := if dHas b1 "command" && (pname == "cmd")
                  then dSet (dRemove b1 "command") "cmd" (dGet b1 "command" .null)
                  else b1
        b2
      else args) = args := by
      by_cases hlen : param_names.length == 1
      · obtain ⟨p, hp⟩ : ∃ p, param_names = [p] := by
          cases param_names with
          | nil => simp at hlen
          | cons a l =>
            cases l with
            | nil => exact ⟨a, rfl⟩
            | cons b m => simp at hlen
        subst hp
        simp only [List.headD_cons, if_pos hlen]
        have hcmd : (dHas args "cmd" && (p == "command")) = false := by
          by_cases hc : dHas args "cmd" = true
          · have := hsub "cmd" hc
            simp only [List.mem_singleton] at this
            subst this
            simp
          · simp only [Bool.not_eq_true] at hc
            simp [hc]
        simp only [hcmd, Bool.false_eq_true, if_false]
        have hcommand : (dHas args "command" && (p == "cmd")) = false := by
          by_cases hc : dHas args "command" = true
          · have := hsub "command" hc
            simp only [List.mem_singleton] at this
            subst this
            simp
          · simp only [Bool.not_eq_true] at hc
            simp [hc]
        simp only [hcommand, Bool.false_eq_true, if_false]
      · simp [hlen]
    rw [hstep2]
    have hdir1 : (param_names.contains "dir" && !(dHas args "dir") && dHas args "path")
        = false := by
      by_cases h1 : param_names.contains "dir" = true
      · by_cases h2 : dHas args "dir" = true
        · simp [h2]
        · simp only [Bool.not_eq_true] at h2
          by_cases h3 : dHas args "path" = true
          · exact absurd ⟨by simpa using h1, h2, h3⟩ hdir
          · simp only [Bool.not_eq_true] at h3
            simp [h3]
      · have h1m : "dir" ∉ param_names := by simpa using h1
        simp [h1m]
    rw [hdir1]
    simp

/-- Claim C6 counterexample.  All supplied keys (`"path"`) are declared
parameter names of `["dir", "path"]`, yet reconciliation is not the
identity: the `"dir"` rule renames `"path"` to `"dir"`. -/
theorem reconcile_identity_counterexample :
    dHas [("path", Json.str "x")] "path" = true
    ∧ ("path" : String) ∈ (["dir", "path"] : List String)
    ∧ applyArgAliases ["dir", "path"] [("path", Json.str "x")]
        = [("dir", Json.str "x")]
    ∧ dHas (applyArgAliases ["dir", "path"] [("path", Json.str "x")]) "path" = false := by
  exact ⟨rfl, by decide, rfl, rfl⟩

/-- Claim C6 witness. -/
theorem reconcile_identity_witness :
    applyArgAliases ["dir", "glob", "limit"]
        [("dir", Json.str "/tmp"), ("glob", Json.str "*.txt")]
      = [("dir", Json.str "/tmp"), ("glob", Json.str "*.txt")] := by
  apply reconcile_identity_on_declared_keys
  · intro k hk
    have : k = "dir" ∨ k = "glob" := by
      by_cases h1 : k = "dir"
      · exact Or.inl h1
      · right
        rw [dHas_eq_isSome] at hk
        by_cases h2 : k = "glob"
        · exact h2
        · exfalso
          have hget : dGetOpt [("dir", Json.str "/tmp"), ("glob", Json.str "*.txt")] k
              = none := by
            rw [dGetOpt_cons, dGetOpt_cons]
            have e1 : (("dir" : String) == k) = false :=
              beq_eq_false_iff_ne.mpr (fun h => h1 h.symm)
            have e2 : (("glob" : String) == k) = false :=
              beq_eq_false_iff_ne.mpr (fun h => h2 h.symm)
            simp [e1, e2, dGetOpt]
          rw [hget] at hk
          cases hk
    rcases this with rfl | rfl
    · exact List.mem_cons_self _ _
    · exact List.mem_cons_of_mem _ (List.mem_cons_self _ _)
  · rintro ⟨-, h2, -⟩
    cases h2

/-! ### CORS configuration (claim C9) and the auth gate (claim C3) -/

/-- Claim C9 (amended).  When the allowed-origins environment variable is
unset the applied CORS allow-list is `["http://127.0.0.1:8787"]` (the
`os.getenv` default), not `["*"]`; when it is set, the applied list is
the comma-separated, stripped, empties-dropped list of origins, except
that when that list comes out empty the `or ["*"]` fallback makes the
applied list `["*"]`. -/
theorem cors_allow_origins_spec (s : String) :
    corsAllowOrigins none = ["http://127.0.0.1:8787"]
    ∧ (allowedOrigins (some s) ≠ [] →
        corsAllowOrigins (some s) = allowedOrigins (some s))
    ∧ (allowedOrigins (some s) = [] → corsAllowOrigins (some s) = ["*"]) := by
  refine ⟨by decide, ?_, ?_⟩
  · intro h
    unfold corsAllowOrigins
    rw [if_neg (by simpa using h)]
  · intro h
    unfold corsAllowOrigins
    rw [if_pos (by simpa using h)]

/-- Claim C9 counterexample.  With the environment variable unset the
allow-list applied to the app is not the permissive `["*"]` the claim
states but the hard-coded localhost default. -/
theorem cors_allow_origins_counterexample :
    corsAllowOrigins none ≠ ["*"]
    ∧ corsAllowOrigins none = ["http://127.0.0.1:8787"] := by
  constructor
  · decide
  · decide

/-- Claim C9 witness. -/
theorem cors_allow_origins_witness :
    allowedOrigins (some "http://a.com, http://b.org") ≠ []
    ∧ corsAllowOrigins (some "http://a.com, http://b.org")
        = allowedOrigins (some "http://a.com, http://b.org") := by
  exact ⟨by decide, (cors_allow_origins_spec "http://a.com, http://b.org").2.1 (by decide)⟩

/-- Claim C3 (confirmed).  When a non-empty bearer token is configured,
every request whose path starts with `/mcp` and whose `Authorization`
header (absent defaulting to `""`) is not exactly `"Bearer " ++ token`
is rejected with status 401 by the middleware: the pipeline never
reaches the dispatcher, so no tool executes.  When no token is
configured every request is dispatched unchecked. -/
theorem auth_gate_rejects_before_dispatch (expectedToken : String) (reg : Registry)
    (req : HttpRequest) :
    (expectedToken ≠ "" → pyStartsWith req.path "/mcp" = true →
      (req.authHeader.getD "") ≠ "Bearer " ++ expectedToken →
      appPipeline expectedToken reg req
        = .rejected 401 (.obj [("error", .str "unauthorized")]))
    ∧ appPipeline "" reg req = .dispatched (mcp_rpc_handler reg req.body) := by
  constructor
  · intro htok hpath hauth
    unfold appPipeline authMiddleware
    rw [if_pos hpath, if_pos htok, if_pos hauth]
  · unfold appPipeline authMiddleware
    by_cases hpath : pyStartsWith req.path "/mcp" = true
    · rw [if_pos hpath, if_neg (by simp)]
    · rw [if_neg hpath]

/-- Claim C3 witness. -/
theorem auth_gate_witness :
    ("secret" : String) ≠ ""
    ∧ pyStartsWith "/mcp/rpc" "/mcp" = true
    ∧ ((some "Bearer wrong" : Option String).getD "") ≠ "Bearer " ++ "secret"
    ∧ appPipeline "secret" []
        { path := "/mcp/rpc", authHeader := some "Bearer wrong",
          body := some (Json.obj []) }
        = .rejected 401 (.obj [("error", .str "unauthorized")]) := by
  refine ⟨by decide, by decide, by decide, ?_⟩
  exact (auth_gate_rejects_before_dispatch "secret" []
    { path := "/mcp/rpc", authHeader := some "Bearer wrong",
      body := some (Json.obj []) }).1 (by decide) (by decide) (by decide)

/-! ### Reduction lemmas for the dispatcher -/

theorem pyOrEmptyObj_obj (pk : List (String × Json)) :
    pyOrEmptyObj (.obj pk) = .obj pk := by
  cases pk <;> rfl

theorem envelopeId_errEnv (i : Json) (c : Int) (m : String) :
    envelopeId (errEnv i c m) = i := rfl

theorem envelopeId_resultEnv (i r : Json) :
    envelopeId (resultEnv i r) = i := rfl

/-- The `tools/call` route of the handler, reduced: for a well-formed
request naming a registered tool, the response is the classification of
the invocation outcome after reconciliation. -/
theorem mcp_call_outcome (reg : Registry) (pv pk : List (String × Json)) (s : String)
    (t : Tool)
    (hj : dGet pv "jsonrpc" Json.null = .str "2.0")
    (hm : dGet pv "method" Json.null = .str "tools/call")
    (hp : dGet pv "params" (.obj []) = .obj pk)
    (hn : dGet pk "name" Json.null = .str s)
    (hs : s ≠ "")
    (ht : findTool reg s = some t) :
    mcp_rpc_handler reg (some (.obj pv)) =
      (match invokeTool t (applyArgAliasesJson t.paramNames
          (pyOrEmptyObj (dGet pk "arguments" (.obj [])))) with
      | .ok v => .response 200 (resultEnv (dGet pv "id" Json.null) v)
      | .typeError e => .response 400 (errEnv (dGet pv "id" Json.null) (-32602)
          ("Invalid params: " ++ e ++ ". Signature: " ++ toolSignatureString t))
      | .exn e => .response 500 (errEnv (dGet pv "id" Json.null) (-32000)
          ("Tool error: " ++ e))) := by
  have htr : jsonTruthy (Json.str s) = true := by
    simp [jsonTruthy, hs]
  have e0 : jsonTruthy (Json.str "tools/call") = true := rfl
  simp only [mcp_rpc_handler]
  rw [hj, hm, hp, pyOrEmptyObj_obj]
  simp only [callBranch]
  rw [hn, htr]
  simp [Json.isStr, e0]
  rw [ht]

/-! ### The signature string contains every parameter name (for C1) -/

theorem str_data_append (a b : String) : (a ++ b).data = a.data ++ b.data := rfl

theorem str_infix_refl (x : String) : x.data <:+: x.data := ⟨[], [], by simp⟩

theorem str_infix_sandwich (a b x : String) : x.data <:+: (a ++ x ++ b).data :=
  ⟨a.data, b.data, by simp [str_data_append]⟩

theorem str_infix_extendL (a : String) {x y : String} (h : x.data <:+: y.data) :
    x.data <:+: (a ++ y).data := by
  obtain ⟨s, t, hst⟩ := h
  exact ⟨a.data ++ s, t, by rw [str_data_append, ← hst]; simp⟩

theorem str_infix_extendR (b : String) {x y : String} (h : x.data <:+: y.data) :
    x.data <:+: (y ++ b).data := by
  obtain ⟨s, t, hst⟩ := h
  exact ⟨s, t ++ b.data, by rw [str_data_append, ← hst]; simp⟩

theorem repr_mem_infix_reprList (x : Json) : ∀ (xs : List Json), x ∈ xs →
    (jsonPyRepr x).data <:+: (jsonPyReprList xs).data := by
  intro xs
  induction xs with
  | nil => intro h; cases h
  | cons y ys ih =>
    intro h
    cases ys with
    | nil =>
      rcases List.mem_cons.mp h with rfl | h2
      · simp only [jsonPyReprList]
        exact str_infix_refl _
      · cases h2
    | cons z zs =>
      rcases List.mem_cons.mp h with rfl | h2
      · simp only [jsonPyReprList]
        apply str_infix_extendR
        apply str_infix_extendR
        exact str_infix_refl _
      · simp only [jsonPyReprList]
        apply str_infix_extendL
        exact ih h2

/-- Every declared parameter's name occurs in the rendered tool
descriptor embedded in the `-32602` error message. -/
theorem param_name_infix_signature (t : Tool) (p : ParamInfo) (hp : p ∈ t.params) :
    p.name.data <:+: (toolSignatureString t).data := by
  have hentry : p.name.data <:+:
      (jsonPyRepr (.obj [("name", .str p.name), ("kind", .str p.kind),
        ("default", p.default), ("annotation", p.annot)])).data := by
    simp only [jsonPyRepr, jsonPyReprFields]
    apply str_infix_extendR
    apply str_infix_extendL
    apply str_infix_extendR
    apply str_infix_extendR
    apply str_infix_extendL
    exact str_infix_sandwich _ _ _
  have hmem : (jsonPyRepr (.obj [("name", .str p.name), ("kind", .str p.kind),
      ("default", p.default), ("annotation", p.annot)])).data <:+:
      (jsonPyReprList (t.params.map (fun q =>
        Json.obj [("name", .str q.name), ("kind", .str q.kind),
          ("default", q.default), ("annotation", q.annot)]))).data :=
    repr_mem_infix_reprList _ _ (List.mem_map_of_mem _ hp)
  simp only [toolSignatureString, toolSignatureJson, jsonPyRepr, jsonPyReprFields]
  apply str_infix_extendR
  apply str_infix_extendL
  apply str_infix_extendL
  apply str_infix_extendL
  apply str_infix_extendL
  apply str_infix_extendR
  apply str_infix_extendL
  exact hentry.trans hmem

/-! ### shell_run (claim C10) -/

/-- Claim C10 (confirmed).  `shell_run` spawns a subprocess exactly when
`shlex.split(cmd)` returns a non-empty token list whose first token is
allowed; an empty or disallowed command yields an `ok: false` result
without spawning; and once the subprocess runs, every failure the run
raises is caught and returned as an `ok: false` result instead of
propagating. -/
theorem shell_run_spawn_and_catch (ctx : ShellCtx) (cmd : String) (cwd timeout : Json) :
    ((shell_run_body ctx cmd cwd timeout).1 = true ↔
      ∃ tokens, ctx.split cmd = .ok tokens ∧ tokens ≠ []
        ∧ tokens.headD "" ∈ ALLOWED)
    ∧ (ctx.split cmd = .ok [] →
        shell_run_body ctx cmd cwd timeout
          = (false, .ok (.obj [("ok", .bool false), ("error", .str "empty command")])))
    ∧ (∀ tokens, ctx.split cmd = .ok tokens → tokens ≠ [] →
        tokens.headD "" ∉ ALLOWED →
        shell_run_body ctx cmd cwd timeout
          = (false, .ok (.obj [("ok", .bool false),
              ("error", .str ("command not allowed: " ++ tokens.headD ""))])))
    ∧ (∀ tokens m, ctx.split cmd = .ok tokens → tokens ≠ [] →
        tokens.headD "" ∈ ALLOWED → ctx.run tokens cwd timeout = .exn m →
        shell_run_body ctx cmd cwd timeout
          = (true, .ok (.obj [("ok", .bool false), ("error", .str m)]))) := by
  refine ⟨?_, ?_, ?_, ?_⟩
  · constructor
    · intro h
      unfold shell_run_body at h
      cases hs : ctx.split cmd with
      | error e => rw [hs] at h; simp at h
      | ok tokens =>
        rw [hs] at h
        cases tokens with
        | nil => simp at h
        | cons a as =>
          by_cases ha : a ∈ ALLOWED
          · exact ⟨a :: as, rfl, by simp, by simpa using ha⟩
          · simp [ha] at h
    · rintro ⟨tokens, hs, hne, ha⟩
      obtain ⟨a, as, rfl⟩ := List.exists_cons_of_ne_nil hne
      simp only [List.headD_cons] at ha
      unfold shell_run_body
      rw [hs]
      simp [ha]
  · intro hs
    unfold shell_run_body
    rw [hs]
    simp
  · intro tokens hs hne ha
    obtain ⟨a, as, rfl⟩ := List.exists_cons_of_ne_nil hne
    simp only [List.headD_cons] at ha
    unfold shell_run_body
    rw [hs]
    simp [ha]
  · intro tokens m hs hne ha hrun
    obtain ⟨a, as, rfl⟩ := List.exists_cons_of_ne_nil hne
    simp only [List.headD_cons] at ha
    unfold shell_run_body
    rw [hs]
    simp [ha, hrun]

/-- Claim C10 witness. -/
theorem shell_run_witness :
    shell_run_body
        { split := fun _ => .ok ["ls"],
          run := fun _ _ _ => .exn "Command timed out after 30 seconds" }
        "ls" (Json.str ".") (Json.num 30)
      = (true, .ok (.obj [("ok", .bool false),
          ("error", .str "Command timed out after 30 seconds")])) := by
  exact (shell_run_spawn_and_catch
    { split := fun _ => .ok ["ls"],
      run := fun _ _ _ => .exn "Command timed out after 30 seconds" }
    "ls" (Json.str ".") (Json.num 30)).2.2.2 ["ls"]
    "Command timed out after 30 seconds" rfl (by decide) (by decide) rfl

/-! ### tools/call error classification (claims C1, C7) -/

theorem pyOrEmptyObj_truthy {j : Json} (h : jsonTruthy j = true) :
    pyOrEmptyObj j = j := by
  simp [pyOrEmptyObj, h]

/-- Claim C1 (confirmed).  For a `tools/call` request naming a registered
tool: an argument-shape error (`TypeError`) from the invocation yields
the `-32602` envelope at HTTP 400 whose message embeds the tool's
descriptor — in particular every declared parameter name occurs in the
message — and any other raised failure yields the `-32000` envelope at
HTTP 500 carrying the failure's message. -/
theorem tools_call_error_codes (reg : Registry) (pv pk : List (String × Json))
    (s : String) (t : Tool) (e e2 : String)
    (hj : dGet pv "jsonrpc" Json.null = .str "2.0")
    (hm : dGet pv "method" Json.null = .str "tools/call")
    (hp : dGet pv "params" (.obj []) = .obj pk)
    (hn : dGet pk "name" Json.null = .str s)
    (hs : s ≠ "")
    (ht : findTool reg s = some t) :
    (invokeTool t (applyArgAliasesJson t.paramNames
        (pyOrEmptyObj (dGet pk "arguments" (.obj [])))) = .typeError e →
      mcp_rpc_handler reg (some (.obj pv)) =
        .response 400 (errEnv (dGet pv "id" Json.null) (-32602)
          ("Invalid params: " ++ e ++ ". Signature: " ++ toolSignatureString t))
      ∧ ∀ p ∈ t.params, p.name.data <:+:
          ("Invalid params: " ++ e ++ ". Signature: " ++ toolSignatureString t).data)
    ∧ (invokeTool t (applyArgAliasesJson t.paramNames
        (pyOrEmptyObj (dGet pk "arguments" (.obj [])))) = .exn e2 →
      mcp_rpc_handler reg (some (.obj pv)) =
        .response 500 (errEnv (dGet pv "id" Json.null) (-32000)
          ("Tool error: " ++ e2))) := by
  constructor
  · intro hinv
    constructor
    · rw [mcp_call_outcome reg pv pk s t hj hm hp hn hs ht, hinv]
    · intro p hp2
      exact str_infix_extendL _ (param_name_infix_signature t p hp2)
  · intro hinv
    rw [mcp_call_outcome reg pv pk s t hj hm hp hn hs ht, hinv]

/-- Claim C1 witness: calling `echo` with no arguments raises the
missing-parameter `TypeError`, surfaced as `-32602`/400 with the
signature in the message. -/
theorem tools_call_error_codes_witness :
    mcp_rpc_handler [("echo", echo_tool)]
        (some (.obj [("jsonrpc", .str "2.0"), ("method", .str "tools/call"),
          ("id", .num 1),
          ("params", .obj [("name", .str "echo"), ("arguments", .obj [])])]))
      = .response 400 (errEnv (Json.num 1) (-32602)
          ("Invalid params: "
            ++ "echo() missing 1 required positional argument: \x27text\x27"
            ++ ". Signature: " ++ toolSignatureString echo_tool)) :=
  ((tools_call_error_codes [("echo", echo_tool)]
      [("jsonrpc", .str "2.0"), ("method", .str "tools/call"), ("id", .num 1),
       ("params", .obj [("name", .str "echo"), ("arguments", .obj [])])]
      [("name", .str "echo"), ("arguments", .obj [])]
      "echo" echo_tool
      "echo() missing 1 required positional argument: \x27text\x27" ""
      rfl rfl rfl rfl (by decide) rfl).1 rfl).1

/-- Claim C7 (amended).  A *truthy* non-mapping `params.arguments` (e.g. a
non-empty list) passes through reconciliation unchanged, and the
`fn(**arguments)` unpacking then raises `TypeError`, surfaced as
`-32602` at HTTP 400.  A *falsy* value (empty list, `0`, `""`, `false`,
`null`) is instead replaced by the empty mapping by `or \x7b\x7d` before
reconciliation, and the call proceeds with no arguments — see the
counterexample. -/
theorem tools_call_nonmapping_arguments (reg : Registry)
    (pv pk : List (String × Json)) (s : String) (t : Tool) (args : Json)
    (hj : dGet pv "jsonrpc" Json.null = .str "2.0")
    (hm : dGet pv "method" Json.null = .str "tools/call")
    (hp : dGet pv "params" (.obj []) = .obj pk)
    (hn : dGet pk "name" Json.null = .str s)
    (hs : s ≠ "")
    (ht : findTool reg s = some t)
    (hargs : dGet pk "arguments" (.obj []) = args)
    (htru : jsonTruthy args = true)
    (hnotobj : args.isObj = false) :
    applyArgAliasesJson t.paramNames args = args
    ∧ mcp_rpc_handler reg (some (.obj pv)) =
        .response 400 (errEnv (dGet pv "id" Json.null) (-32602)
          ("Invalid params: " ++ (t.fname ++ "() argument after ** must be a mapping, not "
            ++ pyTypeName args) ++ ". Signature: " ++ toolSignatureString t)) := by
  have hno : applyArgAliasesJson t.paramNames args = args := by
    cases args with
    | obj kvs => simp [Json.isObj] at hnotobj
    | null => rfl
    | bool b => rfl
    | num n => rfl
    | str s2 => rfl
    | arr xs => rfl
  refine ⟨hno, ?_⟩
  rw [mcp_call_outcome reg pv pk s t hj hm hp hn hs ht, hargs,
    pyOrEmptyObj_truthy htru, hno]
  cases args with
  | obj kvs => simp [Json.isObj] at hnotobj
  | null => rfl
  | bool b => rfl
  | num n => rfl
  | str s2 => rfl
  | arr xs => rfl

/-- Claim C7 counterexample.  `params.arguments = []` is not a mapping,
yet the call does not fail with `-32602`: the falsy list is replaced by
`\x7b\x7d` and `ping` succeeds with HTTP 200. -/
theorem tools_call_nonmapping_counterexample :
    mcp_rpc_handler [("ping", ping_tool "2026-01-01T00:00:00+00:00" "1.1.0")]
        (callReq "ping" (Json.arr []))
      = .response 200 (resultEnv .null (.obj [("status", .str "pong"),
          ("timestamp", .str "2026-01-01T00:00:00+00:00"),
          ("server", .str "aiassist-mcp"), ("version", .str "1.1.0"),
          ("capabilities", .arr [.str "jsonrpc-2.0", .str "tools", .str "sse"])])) :=
  rfl

/-- Claim C7 witness: a truthy non-mapping (`[1]`) supplied to `echo`
yields `-32602` at 400. -/
theorem tools_call_nonmapping_witness :
    applyArgAliasesJson echo_tool.paramNames (Json.arr [Json.num 1])
        = Json.arr [Json.num 1]
    ∧ mcp_rpc_handler [("echo", echo_tool)]
        (callReq "echo" (Json.arr [Json.num 1]))
      = .response 400 (errEnv Json.null (-32602)
          ("Invalid params: " ++ ("echo" ++ "() argument after ** must be a mapping, not "
            ++ pyTypeName (Json.arr [Json.num 1]))
            ++ ". Signature: " ++ toolSignatureString echo_tool)) :=
  tools_call_nonmapping_arguments [("echo", echo_tool)]
    [("jsonrpc", .str "2.0"), ("method", .str "tools/call"),
     ("params", .obj [("name", .str "echo"), ("arguments", .arr [.num 1])])]
    [("name", .str "echo"), ("arguments", .arr [.num 1])]
    "echo" echo_tool (Json.arr [Json.num 1])
    rfl rfl rfl rfl (by decide) rfl rfl rfl rfl

/-! ### Envelope identifier echoing (claim C2) -/

theorem describeBranch_id (reg : Registry) (params id_ : Json) (st : Nat) (b : Json)
    (h : describeBranch reg params id_ = .response st b) : envelopeId b = id_ := by
  cases params with
  | obj pk =>
    simp only [describeBranch] at h
    repeat' split at h
    all_goals first
      | (cases h; rfl)
      | exact (HandlerResult.noConfusion h)
  | null => exact (HandlerResult.noConfusion h)
  | bool b2 => exact (HandlerResult.noConfusion h)
  | num n => exact (HandlerResult.noConfusion h)
  | str s => exact (HandlerResult.noConfusion h)
  | arr xs => exact (HandlerResult.noConfusion h)

theorem callBranch_id (reg : Registry) (params id_ : Json) (st : Nat) (b : Json)
    (h : callBranch reg params id_ = .response st b) : envelopeId b = id_ := by
  cases params with
  | obj pk =>
    simp only [callBranch] at h
    repeat' split at h
    all_goals first
      | (cases h; rfl)
      | exact (HandlerResult.noConfusion h)
  | null => exact (HandlerResult.noConfusion h)
  | bool b2 => exact (HandlerResult.noConfusion h)
  | num n => exact (HandlerResult.noConfusion h)
  | str s => exact (HandlerResult.noConfusion h)
  | arr xs => exact (HandlerResult.noConfusion h)

/-- Claim C2 (amended).  An unparseable body yields the `-32700` envelope
at 400 with identifier `null`; and for a body that parses to a JSON
*object*, whenever the handler returns a response at all, that response
is a single envelope echoing the request's identifier verbatim (`null`
when absent).  A body parsing to a non-object JSON value instead makes
the handler raise an uncaught `AttributeError`, so no envelope is
produced — see the counterexample. -/
theorem rpc_envelope_per_request (reg : Registry) (pv : List (String × Json))
    (st : Nat) (b : Json) :
    (mcp_rpc_handler reg none = .response 400 (errEnv .null (-32700) "Parse error"))
    ∧ (mcp_rpc_handler reg (some (.obj pv)) = .response st b →
        envelopeId b = dGet pv "id" Json.null) := by
  constructor
  · rfl
  · intro h
    simp only [mcp_rpc_handler] at h
    repeat' split at h
    all_goals first
      | (cases h; rfl)
      | exact describeBranch_id _ _ _ _ _ h
      | exact callBranch_id _ _ _ _ _ h

/-- Claim C2 counterexample.  A body that parses to valid JSON which is
not an object (here the JSON array `[]`) produces no envelope at all:
`payload.get("jsonrpc")` raises `AttributeError` out of the handler. -/
theorem rpc_envelope_counterexample :
    mcp_rpc_handler [] (some (Json.arr []))
      = .crash "AttributeError: \x27list\x27 object has no attribute \x27get\x27" :=
  rfl

/-- Claim C2 witness. -/
theorem rpc_envelope_witness :
    envelopeId (errEnv (Json.num 7) (-32601)
        ("Method not found: " ++ pyStrJ (Json.str "nosuch"))) = Json.num 7 :=
  (rpc_envelope_per_request []
    [("jsonrpc", .str "2.0"), ("method", .str "nosuch"), ("id", .num 7)]
    404 (errEnv (Json.num 7) (-32601)
      ("Method not found: " ++ pyStrJ (Json.str "nosuch")))).2 rfl

/-! ### Subprocess failure surfacing (claim C4) -/

/-- Claim C4 (amended).  A non-zero subprocess exit is *not* surfaced as a
JSON-RPC error: both `shell_run` and `test_run` catch
`CalledProcessError` and return an `ok: false` *result* (HTTP 200) with
the diagnostic output truncated to 20000 characters; a `shell_run`
timeout is likewise caught (`except Exception`) and returned as an
`ok: false` result at 200.  Only a `test_run` timeout (or other failure
its narrow `except` does not catch) propagates and is surfaced as error
`-32000` at HTTP 500 carrying the failure's message. -/
theorem subprocess_failure_surface (sctx : ShellCtx) (tctx : TestCtx) (c : String)
    (tokens : List String) (code : Int) (out : Option String) (m : String) :
    (sctx.split c = .ok tokens → tokens ≠ [] → tokens.headD "" ∈ ALLOWED →
      sctx.run tokens (.str ".") (.num 30) = .calledProcessError code out →
      mcp_rpc_handler (shellTestRegistry sctx tctx)
          (callReq "shell_run" (.obj [("cmd", .str c)]))
        = .response 200 (resultEnv .null (.obj [("ok", .bool false),
            ("code", .num code), ("output", .str (pyTake (out.getD "") 20000))])))
    ∧ (sctx.split c = .ok tokens → tokens ≠ [] → tokens.headD "" ∈ ALLOWED →
      sctx.run tokens (.str ".") (.num 30) = .exn m →
      mcp_rpc_handler (shellTestRegistry sctx tctx)
          (callReq "shell_run" (.obj [("cmd", .str c)]))
        = .response 200 (resultEnv .null (.obj [("ok", .bool false),
            ("error", .str m)])))
    ∧ (tctx.runShell c (.str ".") (.num 120) = .calledProcessError code out →
      mcp_rpc_handler (shellTestRegistry sctx tctx)
          (callReq "test_run" (.obj [("cmd", .str c)]))
        = .response 200 (resultEnv .null (.obj [("ok", .bool false),
            ("code", .num code), ("output", .str (pyTake (out.getD "") 20000))])))
    ∧ (tctx.runShell c (.str ".") (.num 120) = .exn m →
      mcp_rpc_handler (shellTestRegistry sctx tctx)
          (callReq "test_run" (.obj [("cmd", .str c)]))
        = .response 500 (errEnv .null (-32000) ("Tool error: " ++ m))) := by
  refine ⟨?_, ?_, ?_, ?_⟩
  · intro hsplit hne ha hrun
    obtain ⟨a, as, rfl⟩ := List.exists_cons_of_ne_nil hne
    simp only [List.headD_cons] at ha
    rw [show callReq "shell_run" (.obj [("cmd", Json.str c)])
        = some (.obj [("jsonrpc", .str "2.0"), ("method", .str "tools/call"),
          ("params", .obj [("name", .str "shell_run"),
            ("arguments", .obj [("cmd", .str c)])])]) from rfl]
    rw [mcp_call_outcome (shellTestRegistry sctx tctx)
      [("jsonrpc", .str "2.0"), ("method", .str "tools/call"),
       ("params", .obj [("name", .str "shell_run"), ("arguments", .obj [("cmd", .str c)])])]
      [("name", .str "shell_run"), ("arguments", .obj [("cmd", .str c)])]
      "shell_run" (shell_run_tool sctx) rfl rfl rfl rfl (by decide) rfl]
    rw [show invokeTool (shell_run_tool sctx)
        (applyArgAliasesJson (shell_run_tool sctx).paramNames
          (pyOrEmptyObj (dGet [("name", Json.str "shell_run"),
            ("arguments", .obj [("cmd", .str c)])] "arguments" (.obj []))))
        = (shell_run_body sctx c (Json.str ".") (Json.num 30)).2 from rfl]
    unfold shell_run_body
    rw [hsplit]
    simp [ha, hrun]
    rfl
  · intro hsplit hne ha hrun
    obtain ⟨a, as, rfl⟩ := List.exists_cons_of_ne_nil hne
    simp only [List.headD_cons] at ha
    rw [show callReq "shell_run" (.obj [("cmd", Json.str c)])
        = some (.obj [("jsonrpc", .str "2.0"), ("method", .str "tools/call"),
          ("params", .obj [("name", .str "shell_run"),
            ("arguments", .obj [("cmd", .str c)])])]) from rfl]
    rw [mcp_call_outcome (shellTestRegistry sctx tctx)
      [("jsonrpc", .str "2.0"), ("method", .str "tools/call"),
       ("params", .obj [("name", .str "shell_run"), ("arguments", .obj [("cmd", .str c)])])]
      [("name", .str "shell_run"), ("arguments", .obj [("cmd", .str c)])]
      "shell_run" (shell_run_tool sctx) rfl rfl rfl rfl (by decide) rfl]
    rw [show invokeTool (shell_run_tool sctx)
        (applyArgAliasesJson (shell_run_tool sctx).paramNames
          (pyOrEmptyObj (dGet [("name", Json.str "shell_run"),
            ("arguments", .obj [("cmd", .str c)])] "arguments" (.obj []))))
        = (shell_run_body sctx c (Json.str ".") (Json.num 30)).2 from rfl]
    unfold shell_run_body
    rw [hsplit]
    simp [ha, hrun]
    rfl
  · intro hrun
    rw [show callReq "test_run" (.obj [("cmd", Json.str c)])
        = some (.obj [("jsonrpc", .str "2.0"), ("method", .str "tools/call"),
          ("params", .obj [("name", .str "test_run"),
            ("arguments", .obj [("cmd", .str c)])])]) from rfl]
    rw [mcp_call_outcome (shellTestRegistry sctx tctx)
      [("jsonrpc", .str "2.0"), ("method", .str "tools/call"),
       ("params", .obj [("name", .str "test_run"), ("arguments", .obj [("cmd", .str c)])])]
      [("name", .str "test_run"), ("arguments", .obj [("cmd", .str c)])]
      "test_run" (test_run_tool tctx) rfl rfl rfl rfl (by decide) rfl]
    rw [show invokeTool (test_run_tool tctx)
        (applyArgAliasesJson (test_run_tool tctx).paramNames
          (pyOrEmptyObj (dGet [("name", Json.str "test_run"),
            ("arguments", .obj [("cmd", .str c)])] "arguments" (.obj []))))
        = test_run_body tctx c (Json.str ".") (Json.num 120) from rfl]
    unfold test_run_body
    rw [hrun]
    rfl
  · intro hrun
    rw [show callReq "test_run" (.obj [("cmd", Json.str c)])
        = some (.obj [("jsonrpc", .str "2.0"), ("method", .str "tools/call"),
          ("params", .obj [("name", .str "test_run"),
            ("arguments", .obj [("cmd", .str c)])])]) from rfl]
    rw [mcp_call_outcome (shellTestRegistry sctx tctx)
      [("jsonrpc", .str "2.0"), ("method", .str "tools/call"),
       ("params", .obj [("name", .str "test_run"), ("arguments", .obj [("cmd", .str c)])])]
      [("name", .str "test_run"), ("arguments", .obj [("cmd", .str c)])]
      "test_run" (test_run_tool tctx) rfl rfl rfl rfl (by decide) rfl]
    rw [show invokeTool (test_run_tool tctx)
        (applyArgAliasesJson (test_run_tool tctx).paramNames
          (pyOrEmptyObj (dGet [("name", Json.str "test_run"),
            ("arguments", .obj [("cmd", .str c)])] "arguments" (.obj []))))
        = test_run_body tctx c (Json.str ".") (Json.num 120) from rfl]
    unfold test_run_body
    rw [hrun]
    rfl

/-- Claim C4 counterexample.  `shell_run` on a command whose subprocess
exits with status 2 responds with a *success* envelope at HTTP 200
(`ok: false`, exit code, output) — not the claimed error `-32000` at
HTTP 500. -/
theorem subprocess_failure_counterexample :
    mcp_rpc_handler
        [("shell_run", shell_run_tool
          { split := fun _ => .ok ["ls"],
            run := fun _ _ _ => .calledProcessError 2 (some "boom") })]
        (callReq "shell_run" (.obj [("cmd", .str "ls")]))
      = .response 200 (resultEnv .null (.obj [("ok", .bool false),
          ("code", .num 2), ("output", .str "boom")])) :=
  rfl

/-- Claim C4 witness: a `test_run` timeout propagates and is surfaced as
`-32000` at HTTP 500. -/
theorem subprocess_failure_witness :
    mcp_rpc_handler
        (shellTestRegistry
          { split := fun _ => .ok ["ls"], run := fun _ _ _ => .success "" }
          { runShell := fun _ _ _ =>
              .exn "Command \x27pytest -q\x27 timed out after 120 seconds" })
        (callReq "test_run" (.obj [("cmd", .str "pytest -q")]))
      = .response 500 (errEnv .null (-32000)
          ("Tool error: " ++ "Command \x27pytest -q\x27 timed out after 120 seconds")) :=
  (subprocess_failure_surface
    { split := fun _ => .ok ["ls"], run := fun _ _ _ => .success "" }
    { runShell := fun _ _ _ =>
        .exn "Command \x27pytest -q\x27 timed out after 120 seconds" }
    "pytest -q" ["ls"] 0 none
    "Command \x27pytest -q\x27 timed out after 120 seconds").2.2.2 rfl

/-! ### The registry and tools/list (claim C8) -/

theorem foldl_dSet_lookup (l : List (String × Tool)) (n : String) : ∀ (r : Registry),
    dGetOpt (l.foldl (fun r p => dSet r p.1 p.2) r) n
      = l.foldl (fun acc p => if p.1 == n then some p.2 else acc) (dGetOpt r n) := by
  induction l with
  | nil => intro r; rfl
  | cons p rest ih =>
    intro r
    simp only [List.foldl_cons]
    rw [ih (dSet r p.1 p.2), dGetOpt_dSet]
  -- the two step functions agree on the seed

/-- Lookup `TOOLS[name]` after a registration sequence is the value of the last
registration of that name. -/
theorem findTool_registerSeq (l : List (String × Tool)) (n : String) :
    findTool (registerSeq l) n = lastRegistered l n := by
  unfold findTool registerSeq registerTool lastRegistered
  rw [foldl_dSet_lookup l n []]
  rfl

theorem lastRegistered_eq_none_iff (l : List (String × Tool)) (n : String) :
    ∀ (acc : Option Tool),
    l.foldl (fun acc p => if p.1 == n then some p.2 else acc) acc = none
      ↔ acc = none ∧ n ∉ l.map Prod.fst := by
  induction l with
  | nil => intro acc; simp
  | cons p rest ih =>
    intro acc
    simp only [List.foldl_cons, List.map_cons, List.mem_cons]
    rw [ih]
    by_cases hp : p.1 = n
    · subst hp
      simp
    · have : (p.1 == n) = false := beq_eq_false_iff_ne.mpr hp
      simp [this, hp]
      intro _ _
      exact fun h => hp h.symm

theorem dGetOpt_some_mem {α : Type} (kvs : List (String × α)) (n : String) (t : α)
    (h : dGetOpt kvs n = some t) : (n, t) ∈ kvs := by
  induction kvs with
  | nil => cases h
  | cons p rest ih =>
    rw [dGetOpt_cons] at h
    by_cases hp : p.1 == n
    · rw [if_pos hp] at h
      rw [beq_iff_eq] at hp
      have h2 := Option.some.inj h
      have hpt : p = (n, t) := by
        obtain ⟨a, b⟩ := p
        simp only at hp h2
        rw [hp, h2]
      rw [hpt]
      exact List.mem_cons_self _ _
    · rw [if_neg hp] at h
      exact List.mem_cons_of_mem _ (ih h)

theorem dHas_iff_mem_keys {α : Type} (kvs : List (String × α)) (k : String) :
    dHas kvs k = true ↔ k ∈ kvs.map Prod.fst := by
  induction kvs with
  | nil => simp [dHas, List.find?]
  | cons p rest ih =>
    rw [dHas_eq_isSome, dGetOpt_cons]
    by_cases hp : p.1 == k
    · rw [beq_iff_eq] at hp
      simp [hp]
    · have hp' : p.1 ≠ k := by rwa [← beq_eq_false_iff_ne, ← Bool.not_eq_true]
      rw [dHas_eq_isSome] at ih
      simp only [hp, Bool.false_eq_true, if_false, List.map_cons, List.mem_cons]
      rw [ih]
      constructor
      · exact Or.inr
      · rintro (rfl | h)
        · exact absurd rfl hp'
        · exact h

theorem dSet_keys_of_has {α : Type} (kvs : List (String × α)) (k : String) (v : α)
    (h : dHas kvs k = true) : (dSet kvs k v).map Prod.fst = kvs.map Prod.fst := by
  unfold dSet
  rw [if_pos h, List.map_map]
  apply List.map_congr_left
  intro p _
  by_cases hp : p.1 = k
  · simp only [Function.comp_apply, beq_iff_eq, if_pos hp]
    exact hp.symm
  · simp [Function.comp_apply, hp]

theorem dSet_keys_nodup {α : Type} (kvs : List (String × α)) (k : String) (v : α)
    (h : (kvs.map Prod.fst).Nodup) : ((dSet kvs k v).map Prod.fst).Nodup := by
  by_cases hh : dHas kvs k = true
  · rw [dSet_keys_of_has kvs k v hh]
    exact h
  · have hh' : dHas kvs k = false := by simpa using hh
    unfold dSet
    rw [if_neg (by simp [hh'])]
    rw [List.map_append]
    rw [List.nodup_append]
    refine ⟨h, List.nodup_singleton _, ?_⟩
    intro a ha hb
    simp only [List.map_cons, List.map_nil, List.mem_singleton] at hb
    subst hb
    exact absurd ((dHas_iff_mem_keys kvs a).mpr ha) (by simp [hh'])

theorem registerSeq_keys_nodup (l : List (String × Tool)) :
    ((registerSeq l).map Prod.fst).Nodup := by
  unfold registerSeq registerTool
  have : ∀ (r : Registry), (r.map Prod.fst).Nodup →
      ((l.foldl (fun r p => dSet r p.1 p.2) r).map Prod.fst).Nodup := by
    induction l with
    | nil => intro r h; exact h
    | cons p rest ih =>
      intro r h
      exact ih (dSet r p.1 p.2) (dSet_keys_nodup r p.1 p.2 h)
  exact this [] (by simp)

/-- Claim C8 (confirmed).  After any sequence of registrations:
`tools/list` lists the `(name, description)` pairs sorted by name, each
registered name appears exactly once, lookup resolves every name to its
*last* registration's callable, and the listed description for a name is
the stripped docstring of that last registration. -/
theorem registry_sorted_unique_last_wins (l : List (String × Tool)) (n : String)
    (t : Tool) :
    (((sortByName (registerSeq l)).map Prod.fst).Pairwise (· ≤ ·))
    ∧ (n ∈ l.map Prod.fst →
        ((sortByName (registerSeq l)).map Prod.fst).count n = 1)
    ∧ (findTool (registerSeq l) n = lastRegistered l n)
    ∧ (lastRegistered l n = some t →
        Json.obj [("name", .str n), ("description", .str (pyStrip t.doc))]
          ∈ toolsListEntries (registerSeq l)) := by
  have hperm : List.Perm (sortByName (registerSeq l)) (registerSeq l) :=
    List.perm_insertionSort _ _
  refine ⟨?_, ?_, findTool_registerSeq l n, ?_⟩
  · haveI : IsTotal (String × Tool) (fun a b => a.1 ≤ b.1) :=
      ⟨fun a b => le_total a.1 b.1⟩
    haveI : IsTrans (String × Tool) (fun a b => a.1 ≤ b.1) :=
      ⟨fun a b c h1 h2 => le_trans h1 h2⟩
    have hs : List.Sorted (fun (a b : String × Tool) => a.1 ≤ b.1)
        (sortByName (registerSeq l)) := List.sorted_insertionSort _ _
    exact List.Pairwise.map Prod.fst (fun a b hab => hab) hs
  · intro hmem
    have hnames : List.Perm ((sortByName (registerSeq l)).map Prod.fst)
        ((registerSeq l).map Prod.fst) := hperm.map _
    have hnodup : ((sortByName (registerSeq l)).map Prod.fst).Nodup :=
      hnames.nodup_iff.mpr (registerSeq_keys_nodup l)
    have hlast : lastRegistered l n ≠ none := by
      intro hc
      unfold lastRegistered at hc
      exact absurd ((lastRegistered_eq_none_iff l n none).mp hc).2 (by simpa using hmem)
    obtain ⟨t2, ht2⟩ := Option.ne_none_iff_exists'.mp hlast
    have hfind : findTool (registerSeq l) n = some t2 := by
      rw [findTool_registerSeq l n]; exact ht2
    have hmemkeys : n ∈ (registerSeq l).map Prod.fst := by
      apply (dHas_iff_mem_keys (registerSeq l) n).mp
      rw [dHas_eq_isSome]
      unfold findTool at hfind
      rw [hfind]
      rfl
    exact List.count_eq_one_of_mem hnodup (hnames.mem_iff.mpr hmemkeys)
  · intro hlast
    have hfind : findTool (registerSeq l) n = some t := by
      rw [findTool_registerSeq l n]; exact hlast
    have hmem2 : (n, t) ∈ registerSeq l := dGetOpt_some_mem _ _ _ hfind
    have hmem3 : (n, t) ∈ sortByName (registerSeq l) := hperm.mem_iff.mpr hmem2
    unfold toolsListEntries
    exact List.mem_map_of_mem _ hmem3

/-- Claim C8 witness: registering `b`, `a`, then `b` again lists the
last `b` registration. -/
theorem registry_witness :
    ("b" : String) ∈ ([("b", trivialTool "b" "first"), ("a", trivialTool "a" "other"),
        ("b", trivialTool "b" "second")].map Prod.fst)
    ∧ ((sortByName (registerSeq [("b", trivialTool "b" "first"),
        ("a", trivialTool "a" "other"),
        ("b", trivialTool "b" "second")])).map Prod.fst).count "b" = 1 := by
  constructor
  · simp
  · exact (registry_sorted_unique_last_wins
      [("b", trivialTool "b" "first"), ("a", trivialTool "a" "other"),
       ("b", trivialTool "b" "second")] "b" (trivialTool "b" "second")).2.1 (by simp)

end Aiassist
